/-
Verification of the adgenius-fastapi-backend repository.

Shallow embedding of the components the specification's claims concern:
  * the per-user agent/client cache of `app/mcp_utils.py`
    (`create_user_agent`, `create_user_client`, `_get_base_config`),
  * the chat endpoint of `app/routes/chat.py`,
  * the ad-platform gateway fallback chains of `app/services/meta_service.py`,
  * the authentication middleware of `app/middleware/auth_middleware.py`,
  * the ROI formatting of `app/routes/dashboard.py` (`_calculate_roi`).

External effects (LLM construction, MCP tool calls, HTTP, the database
session) are modelled by explicit outcome parameters; Python dictionaries
that matter only for keyed lookup are modelled as `Nat → Option _` maps,
and the JSON configuration document of `_get_base_config` — whose aliasing
behaviour matters — is modelled by an explicit heap of JSON nodes.
-/
import Mathlib

namespace AdGenius

/-! ## Per-user agent/client cache (`app/mcp_utils.py`)

`_AGENT_CACHE : dict[int, MCPAgent]`, `_ACCESS_TOKEN_CACHE : dict[int, str]`
and `_CLIENT_CACHE : dict[int, MCPClient]` are module-level dictionaries.
An `MCPAgent` / `MCPClient` is opaque to the rest of the program; what the
claims need is its identity (which construction produced it) and the access
token that was injected into its configuration when it was constructed, so
a handle is modelled as a construction counter plus that token.
Construction I/O (config file write, `MCPClient.from_config_file`,
`ChatBedrock`, `MCPAgent(...)`) is abstracted as the successful allocation
of a fresh handle; the token-injection into the configuration document is
modelled separately (heap model below) for the base-config claim. -/

/-- An `MCPAgent`/`MCPClient` handle: `ctorId` identifies the construction
event (fresh per construction), `builtToken` is the access token the handle
was constructed with (the token written into its MCP configuration). -/
structure Handle where
  ctorId : Nat
  builtToken : String
  deriving DecidableEq, Repr

/-- The module-level mutable state of `app/mcp_utils.py`:
`_AGENT_CACHE`, `_CLIENT_CACHE` and the shared `_ACCESS_TOKEN_CACHE`,
all keyed by `user_id`, plus the allocator for fresh construction ids. -/
structure McpState where
  agentCache : Nat → Option Handle
  clientCache : Nat → Option Handle
  tokenCache : Nat → Option String
  nextCtorId : Nat

/-- Update one key of a `dict[int, _]`. -/
def dictSet {α : Type} (d : Nat → Option α) (k : Nat) (v : α) : Nat → Option α :=
  fun k' => if k' = k then some v else d k'

/-- The empty module state (fresh process: all three dicts empty). -/
def initMcpState : McpState :=
  { agentCache := fun _ => none
    clientCache := fun _ => none
    tokenCache := fun _ => none
    nextCtorId := 0 }

/-- `create_user_agent(user_id, access_token)` (mcp_utils.py lines 35-114),
success path.  Returns the cached agent when `_AGENT_CACHE` holds one for
`user_id` and `_ACCESS_TOKEN_CACHE[user_id] == access_token`; otherwise
constructs a fresh agent and stores it in `_AGENT_CACHE` and its token in
the shared `_ACCESS_TOKEN_CACHE`. -/
def create_user_agent (userId : Nat) (accessToken : String) (st : McpState) :
    Handle × McpState :=
  match st.agentCache userId, st.tokenCache userId with
  | some cachedAgent, some cachedToken =>
    if cachedToken = accessToken then
      (cachedAgent, st)
    else
      let agent : Handle := ⟨st.nextCtorId, accessToken⟩
      (agent, { st with
        agentCache := dictSet st.agentCache userId agent
        tokenCache := dictSet st.tokenCache userId accessToken
        nextCtorId := st.nextCtorId + 1 })
  | _, _ =>
    let agent : Handle := ⟨st.nextCtorId, accessToken⟩
    (agent, { st with
      agentCache := dictSet st.agentCache userId agent
      tokenCache := dictSet st.tokenCache userId accessToken
      nextCtorId := st.nextCtorId + 1 })

/-- `create_user_client(user_id, access_token)` (mcp_utils.py lines 117-156).
Identical cache discipline, but over `_CLIENT_CACHE` — and the SAME
`_ACCESS_TOKEN_CACHE` as `create_user_agent`. -/
def create_user_client (userId : Nat) (accessToken : String) (st : McpState) :
    Handle × McpState :=
  match st.clientCache userId, st.tokenCache userId with
  | some cachedClient, some cachedToken =>
    if cachedToken = accessToken then
      (cachedClient, st)
    else
      let client : Handle := ⟨st.nextCtorId, accessToken⟩
      (client, { st with
        clientCache := dictSet st.clientCache userId client
        tokenCache := dictSet st.tokenCache userId accessToken
        nextCtorId := st.nextCtorId + 1 })
  | _, _ =>
    let client : Handle := ⟨st.nextCtorId, accessToken⟩
    (client, { st with
      clientCache := dictSet st.clientCache userId client
      tokenCache := dictSet st.tokenCache userId accessToken
      nextCtorId := st.nextCtorId + 1 })

/-- Well-formedness: every cached handle's construction id is below the
allocator, so a freshly constructed handle differs from every cached one. -/
def McpWF (st : McpState) : Prop :=
  (∀ u a, st.agentCache u = some a → a.ctorId < st.nextCtorId) ∧
  (∀ u c, st.clientCache u = some c → c.ctorId < st.nextCtorId)

/-! ## Base configuration document (`_get_base_config`, mcp_utils.py 22-32)

`_BASE_CONFIG_CACHE` is a process-wide JSON document (nested Python dicts)
loaded once from `settings.MCP_CONFIG_PATH`; `_get_base_config` returns
`_BASE_CONFIG_CACHE.copy()` — a SHALLOW `dict.copy()`.  Because the claims
about it concern aliasing between the copy and the cached document, the
document is modelled by an explicit heap: an address-indexed store of JSON
nodes, where an object node maps keys to child ADDRESSES (Python reference
semantics).  Strings are leaf nodes. -/

/-- A JSON node on the heap: a string leaf, or an object whose fields
point to other heap addresses (Python dict-of-references). -/
inductive JNode where
  | str : String → JNode
  | obj : List (String × Nat) → JNode
  deriving DecidableEq, Repr

/-- The heap: an association list of allocated nodes plus the allocator. -/
structure Heap where
  mem : List (Nat × JNode)
  next : Nat
  deriving Repr

/-- Read the node at an address. -/
def hLookup (h : Heap) (a : Nat) : Option JNode :=
  (h.mem.find? (fun p => p.1 == a)).map (·.2)

/-- The field list of the object at `a` (empty if `a` is not an object). -/
def objFields (h : Heap) (a : Nat) : List (String × Nat) :=
  match hLookup h a with
  | some (JNode.obj fs) => fs
  | _ => []

/-- `dict.get(k)` on a field list: the child address stored under `k`. -/
def fGet (fs : List (String × Nat)) (k : String) : Option Nat :=
  (fs.find? (fun p => p.1 == k)).map (·.2)

/-- `dict[k] = v` on a field list. -/
def fSet (fs : List (String × Nat)) (k : String) (v : Nat) : List (String × Nat) :=
  match fs with
  | [] => [(k, v)]
  | (k', v') :: rest => if k' == k then (k, v) :: rest else (k', v') :: fSet rest k v

/-- In-place mutation `d[k] = v` of the object at address `a`:
every alias of `a` observes the update. -/
def hSetField (h : Heap) (a : Nat) (k : String) (v : Nat) : Heap :=
  { h with
    mem := h.mem.map (fun p =>
      if p.1 == a then
        (p.1, match p.2 with
              | JNode.obj fs => JNode.obj (fSet fs k v)
              | n => n)
      else p) }

/-- Allocate a fresh node. -/
def hAlloc (h : Heap) (n : JNode) : Nat × Heap :=
  (h.next, { mem := h.mem ++ [(h.next, n)], next := h.next + 1 })

/-- `_get_base_config()` after the cache is populated (mcp_utils.py line 32):
`return _BASE_CONFIG_CACHE.copy()`.  `dict.copy()` is SHALLOW: the copy is a
fresh top-level object whose fields point at the SAME child addresses as the
cached document rooted at `cacheRoot`. -/
def get_base_config (h : Heap) (cacheRoot : Nat) : Nat × Heap :=
  hAlloc h (JNode.obj (objFields h cacheRoot))

/-- The token-injection block shared by `create_user_agent` (mcp_utils.py
lines 58-62) and `create_user_client` (lines 132-136), operating on the
dict returned by `_get_base_config`:

    if "mcpServers" not in base: base["mcpServers"] = \x7b\x7d
    base["mcpServers"]["meta-ads"] = base["mcpServers"].get("meta-ads", \x7b\x7d)
    base["mcpServers"]["meta-ads"]["env"] = base["mcpServers"]["meta-ads"].get("env", \x7b\x7d)
    base["mcpServers"]["meta-ads"]["env"]["META_ACCESS_TOKEN"] = access_token
-/
def injectToken (h0 : Heap) (base : Nat) (accessToken : String) : Heap :=
  -- if "mcpServers" not in base: base["mcpServers"] = {}
  let h1 :=
    match fGet (objFields h0 base) "mcpServers" with
    | some _ => h0
    | none =>
      let (a, h) := hAlloc h0 (JNode.obj [])
      hSetField h base "mcpServers" a
  -- base["mcpServers"]  (an address, possibly shared with the cache)
  let ms := (fGet (objFields h1 base) "mcpServers").getD 0
  -- base["mcpServers"]["meta-ads"] = base["mcpServers"].get("meta-ads", {})
  let (ma, h2) :=
    match fGet (objFields h1 ms) "meta-ads" with
    | some a => (a, h1)
    | none => hAlloc h1 (JNode.obj [])
  let h3 := hSetField h2 ms "meta-ads" ma
  -- ...["env"] = ...get("env", {})
  let (envA, h4) :=
    match fGet (objFields h3 ma) "env" with
    | some a => (a, h3)
    | none => hAlloc h3 (JNode.obj [])
  let h5 := hSetField h4 ma "env" envA
  -- ...["env"]["META_ACCESS_TOKEN"] = access_token
  let (ta, h6) := hAlloc h5 (JNode.str accessToken)
  hSetField h6 envA "META_ACCESS_TOKEN" ta

/-- The configuration phase of `create_user_agent`/`create_user_client`:
take a (shallow) copy of the cached base config and inject the token. -/
def configPhase (h : Heap) (cacheRoot : Nat) (accessToken : String) : Nat × Heap :=
  let (base, h1) := get_base_config h cacheRoot
  (base, injectToken h1 base accessToken)

/-- Read `root["mcpServers"]["meta-ads"]["env"]["META_ACCESS_TOKEN"]`
as a string, if present. -/
def readInjectedToken (h : Heap) (root : Nat) : Option String :=
  match fGet (objFields h root) "mcpServers" with
  | none => none
  | some ms =>
    match fGet (objFields h ms) "meta-ads" with
    | none => none
    | some ma =>
      match fGet (objFields h ma) "env" with
      | none => none
      | some envA =>
        match fGet (objFields h envA) "META_ACCESS_TOKEN" with
        | none => none
        | some ta =>
          match hLookup h ta with
          | some (JNode.str s) => some s
          | _ => none

/-- A loaded `_BASE_CONFIG_CACHE` holding the document `{"mcpServers": {}}`:
address 0 is the document root, address 1 its empty `mcpServers` object. -/
def baseConfigHeap : Heap :=
  { mem := [(0, JNode.obj [("mcpServers", 1)]), (1, JNode.obj [])], next := 2 }

/-! ## Chat endpoint (`app/routes/chat.py`, `chat`)

The handler is modelled as a function of: the user's integration row, the
inbound message, the committed chat history, and an environment giving the
outcome of the two external steps (`create_user_agent` and `agent.run`).
The database session is SQLAlchemy commit-or-rollback: `db.add`/`db.flush`
place rows in the open transaction; they reach the committed store only at
`await db.commit()`; an exception that escapes the handler rolls the open
transaction back.  Session-id management, the 10-message history window and
the prompt composition (chat.py lines 39, 126-160) only shape the string
handed to `agent.run`, which is abstract here, so they are not modelled;
persisted rows keep their role tag, content and `extra_data` metadata. -/

/-- A `ChatHistory` row as the claims need it. -/
structure ChatMsg where
  user_id : Nat
  message_type : String
  content : String
  extra_data : List (String × String)
  deriving DecidableEq, Repr

/-- The `Integration` row fields the chat endpoint reads. -/
structure Integration where
  access_token : String
  selected_ad_account : Option String
  deriving DecidableEq, Repr

/-- Python truthiness of `integration.selected_ad_account`
(`NULL` column or empty string are falsy). -/
def isFalsyOptStr : Option String → Bool
  | none => true
  | some s => s == ""

/-- Outcomes of the two external calls the handler makes:
`create_user_agent` (raises or yields an agent) and `agent.run`
(raises or yields the reply text). -/
structure ChatEnv where
  ctorResult : Except String Unit
  runResult : Except String String

/-- The JSON body the endpoint returns (the fields the claims mention). -/
structure ChatResponse where
  success : Bool
  reply : String
  deriving DecidableEq, Repr

/-- How a request to the chat endpoint ends: an HTTP response together with
the committed chat history, or an uncaught exception (the open transaction
rolled back, leaving the history as committed so far). -/
inductive ChatOutcome where
  | response (resp : ChatResponse) (db : List ChatMsg)
  | raised (e : String) (db : List ChatMsg)
  deriving DecidableEq, Repr

/-- Guidance reply for a user with no Meta integration (chat.py 64-69). -/
def guidanceNoIntegration : String :=
  "It looks like you don\x27t have a Meta Ads account connected yet. " ++
  "Please go to the Settings page, connect your Meta Ads account under " ++
  "\"Connected Accounts\", and then come back here to ask questions " ++
  "about your campaigns."

/-- Guidance reply when no primary ad account is selected (chat.py 93-98). -/
def guidanceNoSelectedAccount : String :=
  "You are connected to Meta, but no primary ad account is selected yet. " ++
  "Please open the Settings page, use the \"Select/Change Account\" option " ++
  "under Meta Ads in Connected Accounts, choose an ad account, and then " ++
  "return to this chat to ask about your performance."

/-- `POST /api/chat/` (chat.py lines 30-206).  `db0` is the committed chat
history when the request arrives; the handler appends `user` and
`assistant` rows per the source's control flow. -/
def chat (env : ChatEnv) (integration : Option Integration) (userId : Nat)
    (message : String) (db0 : List ChatMsg) : ChatOutcome :=
  -- db.add(user_message); await db.flush()  — in the open transaction only
  let userMsg : ChatMsg := ⟨userId, "user", message, []⟩
  match integration with
  | none =>
    -- no Meta integration: persist guidance and return success=False
    let am : ChatMsg :=
      ⟨userId, "assistant", guidanceNoIntegration, [("error", "no_meta_integration")]⟩
    ChatOutcome.response ⟨false, guidanceNoIntegration⟩ (db0 ++ [userMsg, am])
  | some integ =>
    if isFalsyOptStr integ.selected_ad_account then
      -- integration without a selected primary ad account
      let am : ChatMsg :=
        ⟨userId, "assistant", guidanceNoSelectedAccount,
          [("error", "no_selected_ad_account")]⟩
      ChatOutcome.response ⟨false, guidanceNoSelectedAccount⟩ (db0 ++ [userMsg, am])
    else
      -- agent = await create_user_agent(user_id, access_token)
      -- NOT inside the try/except: an exception here escapes the handler
      match env.ctorResult with
      | Except.error e =>
        ChatOutcome.raised ("MCP agent failed to initialize: " ++ e) db0
      | Except.ok _ =>
        -- try: out = await agent.run(prompt) ... except Exception as e: ...
        match env.runResult with
        | Except.ok out =>
          let adAccount := integ.selected_ad_account.getD ""
          let am : ChatMsg :=
            ⟨userId, "assistant", out, [("ad_account_id", adAccount)]⟩
          ChatOutcome.response ⟨true, out⟩ (db0 ++ [userMsg, am])
        | Except.error e =>
          let errorMsg :=
            "Sorry, I encountered an error while processing your request: " ++ e
          let am : ChatMsg := ⟨userId, "assistant", errorMsg, [("error", e)]⟩
          ChatOutcome.response ⟨false, errorMsg⟩ (db0 ++ [userMsg, am])

/-- Python `str.startswith`, by structural recursion over the characters
(so that it evaluates on concrete inputs). -/
def startsWithChars : List Char → List Char → Bool
  | [], _ => true
  | _ :: _, [] => false
  | c :: cs, d :: ds => c == d && startsWithChars cs ds

/-- Substring occurrence over character lists. -/
def containsChars (pat : List Char) : List Char → Bool
  | [] => startsWithChars pat []
  | d :: ds => startsWithChars pat (d :: ds) || containsChars pat ds

/-- `pat in s` (Python substring test), to check the guidance wording. -/
def strContains (s pat : String) : Bool :=
  containsChars pat.data s.data

/-- `s.startswith(pat)`. -/
def strStartsWith (s pat : String) : Bool :=
  startsWithChars pat.data s.data

/-! ## Ad-platform gateway (`app/services/meta_service.py`)

Each read operation is modelled as a function of abstract outcomes of its
two paths: `toolRes` stands for `create_user_client` + `client.call_tool`
(an exception anywhere in that block is `.error`), `httpRes` for the direct
`httpx` call including `raise_for_status` and `.json()`.  Each operation
also returns the list of paths it attempted, in order, so ordering claims
are statable.  The `act_` account-id normalization and the field sets of
the HTTP queries do not affect the claims and are not modelled. -/

/-- One attempted path of a gateway operation. -/
inductive PathStep where
  | tool
  | http
  deriving DecidableEq, Repr

/-- Shape of `result.get("content", ...)` for the list-returning tool
calls: a JSON list, a string that parses to a list, a string parsing to a
non-list value, an unparseable string, or anything else (including a
non-dict `result`). -/
inductive ToolListContent (α : Type) where
  | list (xs : List α)
  | strParsedList (xs : List α)
  | strParsedOther
  | strUnparseable
  | other
  deriving DecidableEq, Repr

/-- Shape of `result.get("content", {})` for `get_account_insights`. -/
inductive ToolObjContent (β : Type) where
  | dict (b : β)
  | strParsedDict (b : β)
  | strParsedOther
  | strUnparseable
  | other
  deriving DecidableEq, Repr

/-- `get_campaigns` (meta_service.py lines 110-163): MCP tool call first;
a tool-path exception falls back to the direct HTTP call; an HTTP failure
returns `[]`.  A tool call that SUCCEEDS but yields unusable content
returns `[]` without trying HTTP (lines 127-140). -/
def get_campaigns (toolRes : Except String (ToolListContent α))
    (httpRes : Except String (List α)) : List PathStep × List α :=
  match toolRes with
  | Except.ok (ToolListContent.list xs) => ([PathStep.tool], xs)
  | Except.ok (ToolListContent.strParsedList xs) => ([PathStep.tool], xs)
  | Except.ok ToolListContent.strParsedOther => ([PathStep.tool], [])
  | Except.ok ToolListContent.strUnparseable => ([PathStep.tool], [])
  | Except.ok ToolListContent.other => ([PathStep.tool], [])
  | Except.error _ =>
    match httpRes with
    | Except.ok xs => ([PathStep.tool, PathStep.http], xs)
    | Except.error _ => ([PathStep.tool, PathStep.http], [])

/-- `get_account_insights` (meta_service.py lines 166-221): MCP tool call
first; usable dict content returns; a string parsing to a non-dict returns
`{}` (modelled `none`); otherwise fall through to the direct HTTP call,
which returns `data[0]` or `{}`, and `{}` on failure. -/
def get_account_insights (toolRes : Except String (ToolObjContent β))
    (httpRes : Except String (List β)) : List PathStep × Option β :=
  match toolRes with
  | Except.ok (ToolObjContent.dict b) => ([PathStep.tool], some b)
  | Except.ok (ToolObjContent.strParsedDict b) => ([PathStep.tool], some b)
  | Except.ok ToolObjContent.strParsedOther => ([PathStep.tool], none)
  | Except.ok ToolObjContent.strUnparseable => fallbackHttp httpRes
  | Except.ok ToolObjContent.other => fallbackHttp httpRes
  | Except.error _ => fallbackHttp httpRes
where
  fallbackHttp (httpRes : Except String (List β)) : List PathStep × Option β :=
    match httpRes with
    | Except.ok (x :: _) => ([PathStep.tool, PathStep.http], some x)
    | Except.ok [] => ([PathStep.tool, PathStep.http], none)
    | Except.error _ => ([PathStep.tool, PathStep.http], none)

/-- `get_campaign_insights` (meta_service.py lines 224-284): the DIRECT
HTTP call is attempted first ("Try direct API first for better
reliability"); only on its failure is the MCP tool path attempted; when
both fail the result is `[]`. -/
def get_campaign_insights (toolRes : Except String (ToolListContent α))
    (httpRes : Except String (List α)) : List PathStep × List α :=
  match httpRes with
  | Except.ok xs => ([PathStep.http], xs)
  | Except.error _ =>
    match toolRes with
    | Except.ok (ToolListContent.list xs) => ([PathStep.http, PathStep.tool], xs)
    | Except.ok (ToolListContent.strParsedList xs) => ([PathStep.http, PathStep.tool], xs)
    | Except.ok ToolListContent.strParsedOther => ([PathStep.http, PathStep.tool], [])
    | Except.ok ToolListContent.strUnparseable => ([PathStep.http, PathStep.tool], [])
    | Except.ok ToolListContent.other => ([PathStep.http, PathStep.tool], [])
    | Except.error _ => ([PathStep.http, PathStep.tool], [])

/-- `get_campaign_budgets` (meta_service.py lines 286-338): MCP tool call
first; list content (or string parsing to a list) returns; a string
parsing to a non-list returns `[]`; unusable content or a tool exception
falls back to the direct HTTP call; `[]` when that fails too. -/
def get_campaign_budgets (toolRes : Except String (ToolListContent α))
    (httpRes : Except String (List α)) : List PathStep × List α :=
  match toolRes with
  | Except.ok (ToolListContent.list xs) => ([PathStep.tool], xs)
  | Except.ok (ToolListContent.strParsedList xs) => ([PathStep.tool], xs)
  | Except.ok ToolListContent.strParsedOther => ([PathStep.tool], [])
  | Except.ok ToolListContent.strUnparseable => budgetFallback httpRes
  | Except.ok ToolListContent.other => budgetFallback httpRes
  | Except.error _ => budgetFallback httpRes
where
  budgetFallback (httpRes : Except String (List α)) : List PathStep × List α :=
    match httpRes with
    | Except.ok xs => ([PathStep.tool, PathStep.http], xs)
    | Except.error _ => ([PathStep.tool, PathStep.http], [])

/-- `get_ad_accounts` (meta_service.py lines 33-107): the account listing
has NO tool-call path — it is a direct HTTP call whose failure
(`raise_for_status`) propagates to the caller.  The per-account detail
sub-calls (lines 66-95) refine name/currency only and are not modelled. -/
def get_ad_accounts (httpRes : Except String (List α)) :
    Except String (List PathStep × List α) :=
  match httpRes with
  | Except.error e => Except.error e
  | Except.ok xs => Except.ok ([PathStep.http], xs)

/-! ## Authentication middleware (`app/middleware/auth_middleware.py`)

`AuthMiddleware.dispatch` as a function of the request and of the outcome
of `jose.jwt.decode` on the extracted token.  `int(user_id)` on a
non-numeric claim and the `id`/`sub` truthiness check are folded into the
decode outcome. -/

/-- The request fields `dispatch` reads. -/
structure HttpRequest where
  method : String
  path : String
  authHeader : Option String
  deriving DecidableEq, Repr

/-- Outcome of `jwt.decode` + user-id extraction on a token string. -/
inductive DecodeOutcome where
  | jwtError
  | noUserId
  | userId (n : Nat)
  deriving DecidableEq, Repr

/-- How `dispatch` ends: `call_next` invoked (with the user id attached to
`request.state`, when one was), a 401 `JSONResponse`, or the
`HTTPException` of the missing-user-id branch escaping the
`except JWTError` handler. -/
inductive DispatchResult where
  | next (uid : Option Nat)
  | unauthorized (msg : String)
  | raisedException
  deriving DecidableEq, Repr

/-- The fixed public allow-list (auth_middleware.py lines 19-27). -/
def public_paths : List String :=
  ["/openapi.json", "/docs", "/redoc", "/api/auth/signup", "/api/auth/login",
   "/api/meta/oauth", "/favicon.ico"]

/-- `AuthMiddleware.dispatch` (auth_middleware.py lines 12-53). -/
def dispatch (jwtDecode : String → DecodeOutcome) (req : HttpRequest) :
    DispatchResult :=
  -- if request.method == "OPTIONS": return await call_next(request)
  if req.method = "OPTIONS" then DispatchResult.next none
  -- for path in public_paths: if request.url.path.startswith(path): ...
  else if public_paths.any (fun p => strStartsWith req.path p) then
    DispatchResult.next none
  else
    match req.authHeader with
    | none => DispatchResult.unauthorized "Missing Authorization header"
    | some h =>
      if ¬ (strStartsWith h "Bearer ") then
        DispatchResult.unauthorized "Missing Authorization header"
      else
        -- token = auth_header.split(" ")[1]
        let token := (h.splitOn " ").getD 1 ""
        match jwtDecode token with
        | DecodeOutcome.jwtError => DispatchResult.unauthorized "Invalid token"
        | DecodeOutcome.noUserId => DispatchResult.raisedException
        | DecodeOutcome.userId n => DispatchResult.next (some n)

/-! ## ROI computation (`app/routes/dashboard.py`, `_calculate_roi`)

Python floats are modelled as rationals; `f"{x:.0f}"` rounds to the
nearest integer with ties to even and renders a negative value that rounds
to zero as `-0` (float negative zero), which `formatFixed0` reproduces. -/

/-- Round to the nearest integer, ties to even (`f"{x:.0f}"` rounding).
With `f = ⌊x⌋`, the fractional part `x - f` equals
`(x.num - f·x.den) / x.den` with positive denominator, so comparing it to
`1/2` is comparing `t = 2·(x.num - f·x.den)` to `x.den` over ℤ. -/
def roundHalfEven (x : ℚ) : ℤ :=
  let f : ℤ := x.floor
  let t : ℤ := 2 * (x.num - f * (x.den : ℤ))
  if t < (x.den : ℤ) then f
  else if (x.den : ℤ) < t then f + 1
  else if f % 2 = 0 then f else f + 1

/-- `f"{x:.0f}"`: the rounded value, keeping the `-` of a negative input
even when the magnitude rounds to zero. -/
def formatFixed0 (x : ℚ) : String :=
  if x < 0 then "-" ++ toString (roundHalfEven x).natAbs
  else toString (roundHalfEven x)

/-- `_calculate_roi(spend, revenue)` (dashboard.py lines 99-105). -/
def calculate_roi (spend revenue : ℚ) : String :=
  if spend = 0 then "0%"
  else
    let roi := ((revenue - spend) / spend) * 100
    let sign := if 0 ≤ roi then "+" else ""
    sign ++ formatFixed0 roi ++ "%"

/-- The spec's description of the nonzero-spend rendering, written from
its words: `((revenue-spend)/spend)*100`, an explicit sign, no decimal
places.  Compared against `calculate_roi` in the refinement theorem. -/
def roiSpecRender (x : ℚ) : String :=
  if 0 ≤ x then "+" ++ toString (roundHalfEven x) ++ "%"
  else "-" ++ toString (roundHalfEven x).natAbs ++ "%"

/-! ## Theorems -/

theorem McpWF_init : McpWF initMcpState := by
  constructor <;> intro u a h <;> simp [initMcpState] at h

/-- After a (successful) `create_user_agent` call, the agent cache and the
shared token cache both map `userId` to the returned handle resp. the
supplied token, and the returned handle's construction id is below the
allocator of the resulting state. -/
theorem create_user_agent_post (userId : Nat) (tok : String) (st : McpState)
    (hwf : McpWF st) :
    (create_user_agent userId tok st).2.agentCache userId =
        some (create_user_agent userId tok st).1 ∧
    (create_user_agent userId tok st).2.tokenCache userId = some tok ∧
    (create_user_agent userId tok st).1.ctorId <
        (create_user_agent userId tok st).2.nextCtorId := by
  unfold create_user_agent
  rcases hA : st.agentCache userId with _ | a0 <;>
    rcases hT : st.tokenCache userId with _ | t0 <;>
    simp only [dictSet, if_pos rfl, Nat.lt_succ_self, and_true, true_and]
  case some.some =>
    split
    case isTrue heq =>
      exact ⟨hA, by rw [hT, heq], hwf.1 userId a0 hA⟩
    case isFalse =>
      simp [dictSet]
  all_goals simp [dictSet]

/-- Committed chat history carried by a chat outcome. -/
def ChatOutcome.db : ChatOutcome → List ChatMsg
  | ChatOutcome.response _ d => d
  | ChatOutcome.raised _ d => d

/-- C1: the claim is violated by the code.  `create_user_agent(1, "token-old")`
then `create_user_client(1, "token-new")` then `create_user_agent(1,
"token-new")`: the third call is a cache HIT (no new construction) returning
the agent of the first call, which was constructed with "token-old" ≠ the
supplied "token-new" — because both caches share one `_ACCESS_TOKEN_CACHE`
and `create_user_client` overwrote it without touching `_AGENT_CACHE`. -/
theorem claim1_stale_agent_returned_across_client_token_rotation :
    (create_user_agent 1 "token-new"
        (create_user_client 1 "token-new"
          (create_user_agent 1 "token-old" initMcpState).2).2).1
      = (create_user_agent 1 "token-old" initMcpState).1 ∧
    (create_user_agent 1 "token-new"
        (create_user_client 1 "token-new"
          (create_user_agent 1 "token-old" initMcpState).2).2).1.builtToken
      = "token-old" ∧
    ("token-old" : String) ≠ "token-new" ∧
    (create_user_agent 1 "token-new"
        (create_user_client 1 "token-new"
          (create_user_agent 1 "token-old" initMcpState).2).2).2.nextCtorId
      = (create_user_client 1 "token-new"
          (create_user_agent 1 "token-old" initMcpState).2).2.nextCtorId := by
  refine ⟨rfl, rfl, by decide, rfl⟩

/-- C2: calling `create_user_agent` twice with the same `(user_id, token)`
returns the identical cached handle with no reconstruction (state
unchanged); calling again with a different token constructs a new handle
carrying the new token and replaces the user's mapping. -/
theorem claim2_agent_cache_coherence (u : Nat) (tok tok' : String)
    (st : McpState) (hwf : McpWF st) (hne : tok' ≠ tok) :
    create_user_agent u tok (create_user_agent u tok st).2
      = ((create_user_agent u tok st).1, (create_user_agent u tok st).2) ∧
    (create_user_agent u tok' (create_user_agent u tok st).2).1
      ≠ (create_user_agent u tok st).1 ∧
    (create_user_agent u tok' (create_user_agent u tok st).2).1.builtToken = tok' ∧
    (create_user_agent u tok' (create_user_agent u tok st).2).2.agentCache u
      = some (create_user_agent u tok' (create_user_agent u tok st).2).1 ∧
    (create_user_agent u tok' (create_user_agent u tok st).2).2.tokenCache u
      = some tok' := by
  obtain ⟨hA, hT, hlt⟩ := create_user_agent_post u tok st hwf
  set a1 := (create_user_agent u tok st).1 with ha1def
  set st1 := (create_user_agent u tok st).2 with hst1def
  have hcall2 : create_user_agent u tok st1 = (a1, st1) := by
    unfold create_user_agent
    rw [hA, hT]
    simp
  have hcall3 : create_user_agent u tok' st1
      = (⟨st1.nextCtorId, tok'⟩,
         { st1 with
            agentCache := dictSet st1.agentCache u ⟨st1.nextCtorId, tok'⟩
            tokenCache := dictSet st1.tokenCache u tok'
            nextCtorId := st1.nextCtorId + 1 }) := by
    unfold create_user_agent
    rw [hA, hT]
    have hne' : ¬ tok = tok' := fun h => hne h.symm
    simp [hne']
  refine ⟨hcall2, ?_, ?_, ?_, ?_⟩
  · intro hEq
    rw [hcall3] at hEq
    rw [← hEq] at hlt
    simp at hlt
  · rw [hcall3]
  · rw [hcall3]
    simp [dictSet]
  · rw [hcall3]
    simp [dictSet]

/-- Witness for C2 at `user_id = 1`, `tok = "token-a"`, `tok' = "token-b"`,
starting from the empty module state. -/
theorem claim2_agent_cache_coherence_witness :
    McpWF initMcpState ∧ ("token-b" : String) ≠ "token-a" ∧
    (create_user_agent 1 "token-a" (create_user_agent 1 "token-a" initMcpState).2
      = ((create_user_agent 1 "token-a" initMcpState).1,
         (create_user_agent 1 "token-a" initMcpState).2) ∧
    (create_user_agent 1 "token-b" (create_user_agent 1 "token-a" initMcpState).2).1
      ≠ (create_user_agent 1 "token-a" initMcpState).1 ∧
    (create_user_agent 1 "token-b"
        (create_user_agent 1 "token-a" initMcpState).2).1.builtToken = "token-b" ∧
    (create_user_agent 1 "token-b"
        (create_user_agent 1 "token-a" initMcpState).2).2.agentCache 1
      = some (create_user_agent 1 "token-b"
          (create_user_agent 1 "token-a" initMcpState).2).1 ∧
    (create_user_agent 1 "token-b"
        (create_user_agent 1 "token-a" initMcpState).2).2.tokenCache 1
      = some "token-b") :=
  ⟨McpWF_init, by decide,
    claim2_agent_cache_coherence 1 "token-a" "token-b" initMcpState McpWF_init
      (by decide)⟩

/-- C3 counterexample: with an integration and a selected ad account, an
exception raised while building the cached agent (`create_user_agent` is
OUTSIDE the try/except of chat.py 162-206) escapes the handler: the
outcome is a raised exception, not a persisted assistant error message. -/
theorem claim3_counterexample_ctor_exception_propagates :
    chat ⟨Except.error "boom", Except.ok "hi"⟩
        (some ⟨"tok", some "act_123"⟩) 7 "How are my ads doing?" []
      = ChatOutcome.raised "MCP agent failed to initialize: boom" [] := by
  rfl

/-- C3 amended: exceptions raised during the agent RUN are caught and turned
into a persisted assistant message (success=false, error in the metadata)
returned as the response; but an exception while building the cached agent
propagates raw to the HTTP layer with nothing further persisted. -/
theorem claim3_amended_run_exceptions_handled (tok sel : String)
    (hsel : sel ≠ "") (uid : Nat) (msg e : String)
    (runAny : Except String String) (db0 : List ChatMsg) :
    chat ⟨Except.ok (), Except.error e⟩ (some ⟨tok, some sel⟩) uid msg db0
      = ChatOutcome.response
          ⟨false, "Sorry, I encountered an error while processing your request: " ++ e⟩
          (db0 ++ [⟨uid, "user", msg, []⟩,
            ⟨uid, "assistant",
              "Sorry, I encountered an error while processing your request: " ++ e,
              [("error", e)]⟩]) ∧
    chat ⟨Except.error e, runAny⟩ (some ⟨tok, some sel⟩) uid msg db0
      = ChatOutcome.raised ("MCP agent failed to initialize: " ++ e) db0 := by
  have hfalsy : isFalsyOptStr (some sel) = false := by
    simp [isFalsyOptStr, hsel]
  constructor <;> simp [chat, hfalsy]

/-- Witness for C3's amended theorem at concrete inputs. -/
theorem claim3_amended_run_exceptions_handled_witness :
    ("act_1" : String) ≠ "" ∧
    (chat ⟨Except.ok (), Except.error "boom"⟩ (some ⟨"t", some "act_1"⟩) 1 "q" []
      = ChatOutcome.response
          ⟨false, "Sorry, I encountered an error while processing your request: " ++ "boom"⟩
          ([] ++ [⟨1, "user", "q", []⟩,
            ⟨1, "assistant",
              "Sorry, I encountered an error while processing your request: " ++ "boom",
              [("error", "boom")]⟩]) ∧
    chat ⟨Except.error "boom", Except.ok "x"⟩ (some ⟨"t", some "act_1"⟩) 1 "q" []
      = ChatOutcome.raised ("MCP agent failed to initialize: " ++ "boom") []) :=
  ⟨by decide,
    claim3_amended_run_exceptions_handled "t" "act_1" (by decide) 1 "q" "boom"
      (Except.ok "x") []⟩

/-- C4 counterexample: the user message is only `db.flush()`ed, never
committed before the external calls; when agent construction raises, the
open transaction rolls back and the committed history is left EMPTY — the
question is not recorded although every downstream step failed. -/
theorem claim4_counterexample_user_message_rolled_back :
    (chat ⟨Except.error "boom", Except.error "boom2"⟩
        (some ⟨"tok", some "act_123"⟩) 7 "my question" []).db = [] ∧
    (⟨7, "user", "my question", []⟩ : ChatMsg) ∉
      (chat ⟨Except.error "boom", Except.error "boom2"⟩
        (some ⟨"tok", some "act_123"⟩) 7 "my question" []).db := by
  refine ⟨rfl, by decide⟩

/-- C4 amended: the user-role row is placed in the open transaction before
any external call but committed only together with a response: whenever
the endpoint returns a response the user message is persisted right after
the prior history, while an exception during agent construction escapes
and rolls the user message back. -/
theorem claim4_amended_user_message_persisted_on_response (env : ChatEnv)
    (integration : Option Integration) (uid : Nat) (msg : String)
    (db0 : List ChatMsg) :
    (∀ resp db', chat env integration uid msg db0 = ChatOutcome.response resp db' →
      ∃ rest, db' = db0 ++ (⟨uid, "user", msg, []⟩ : ChatMsg) :: rest) ∧
    (∀ e, env.ctorResult = Except.error e →
      ∀ integ : Integration, integration = some integ →
        isFalsyOptStr integ.selected_ad_account = false →
        (chat env integration uid msg db0).db = db0) := by
  constructor
  · intro resp db' h
    rcases integration with _ | integ
    · rw [chat] at h
      injection h with h1 h2
      exact ⟨_, h2.symm⟩
    · rw [chat] at h
      by_cases hsel : isFalsyOptStr integ.selected_ad_account
      · rw [if_pos hsel] at h
        injection h with h1 h2
        exact ⟨_, h2.symm⟩
      · rw [if_neg hsel] at h
        rcases henv : env.ctorResult with e | u
        · rw [henv] at h
          cases h
        · rw [henv] at h
          rcases hrun : env.runResult with e' | out <;> rw [hrun] at h <;>
            injection h with h1 h2 <;> exact ⟨_, h2.symm⟩
  · intro e he integ hinteg hsel
    subst hinteg
    rw [chat, if_neg (by rw [hsel]; exact Bool.false_ne_true), he]
    rfl

/-- Witness for C4's amended theorem at concrete inputs. -/
theorem claim4_amended_user_message_persisted_on_response_witness :
    (chat ⟨Except.ok (), Except.ok "fine"⟩ none 1 "q" []
        = ChatOutcome.response ⟨false, guidanceNoIntegration⟩
            ([] ++ [⟨1, "user", "q", []⟩,
              ⟨1, "assistant", guidanceNoIntegration,
                [("error", "no_meta_integration")]⟩])) ∧
    (∃ rest, ([] ++ [(⟨1, "user", "q", []⟩ : ChatMsg),
        ⟨1, "assistant", guidanceNoIntegration, [("error", "no_meta_integration")]⟩])
      = [] ++ (⟨1, "user", "q", []⟩ : ChatMsg) :: rest) :=
  ⟨rfl,
    (claim4_amended_user_message_persisted_on_response
      ⟨Except.ok (), Except.ok "fine"⟩ none 1 "q" []).1 _ _ rfl⟩

/-- C5 counterexample: `get_campaign_insights` with BOTH paths healthy
attempts only the direct HTTP call and returns its data — the tool-call
path is not attempted first, refuting the fixed tool-path-first ordering
claimed for all five operations. -/
theorem claim5_counterexample_campaign_insights_direct_first :
    get_campaign_insights (Except.ok (ToolListContent.list [1]))
        (Except.ok [2, 3])
      = ([PathStep.http], [2, 3]) := by
  rfl

/-- C5 amended: `get_campaigns`, `get_account_insights` and
`get_campaign_budgets` attempt the tool-call path first and reach the HTTP
fallback only after a tool-path failure (an exception, or — for the latter
two — content the tool path cannot use); `get_campaign_insights` attempts
the direct HTTP call first and uses the tool path only when it fails; the
account listing has no tool-call path at all. -/
theorem claim5_amended_gateway_path_ordering :
    (∀ (t : Except String (ToolListContent Nat)) (h : Except String (List Nat)),
      (get_campaigns t h).1.head? = some PathStep.tool ∧
      (PathStep.http ∈ (get_campaigns t h).1 ↔ ∃ e, t = Except.error e)) ∧
    (∀ (t : Except String (ToolObjContent Nat)) (h : Except String (List Nat)),
      (get_account_insights t h).1.head? = some PathStep.tool ∧
      (PathStep.http ∈ (get_account_insights t h).1 ↔
        (∃ e, t = Except.error e) ∨ t = Except.ok ToolObjContent.strUnparseable ∨
          t = Except.ok ToolObjContent.other)) ∧
    (∀ (t : Except String (ToolListContent Nat)) (h : Except String (List Nat)),
      (get_campaign_budgets t h).1.head? = some PathStep.tool ∧
      (PathStep.http ∈ (get_campaign_budgets t h).1 ↔
        (∃ e, t = Except.error e) ∨ t = Except.ok ToolListContent.strUnparseable ∨
          t = Except.ok ToolListContent.other)) ∧
    (∀ (t : Except String (ToolListContent Nat)) (h : Except String (List Nat)),
      (get_campaign_insights t h).1.head? = some PathStep.http ∧
      (PathStep.tool ∈ (get_campaign_insights t h).1 ↔ ∃ e, h = Except.error e)) ∧
    (∀ (h : Except String (List Nat)) (trace : List PathStep) (xs : List Nat),
      get_ad_accounts h = Except.ok (trace, xs) → PathStep.tool ∉ trace) := by
  refine ⟨?_, ?_, ?_, ?_, ?_⟩
  · intro t h
    rcases t with e | c
    · rcases h with e' | xs <;> simp [get_campaigns]
    · rcases c <;> simp [get_campaigns]
  · intro t h
    have hfb : (get_account_insights.fallbackHttp h).1
        = [PathStep.tool, PathStep.http] := by
      rcases h with e' | xs
      · rfl
      · rcases xs with _ | ⟨x, rest⟩ <;> rfl
    rcases t with e | c
    · simp [get_account_insights, hfb]
    · rcases c <;> simp [get_account_insights, hfb]
  · intro t h
    have hfb : (get_campaign_budgets.budgetFallback h).1
        = [PathStep.tool, PathStep.http] := by
      rcases h with e' | xs <;> rfl
    rcases t with e | c
    · simp [get_campaign_budgets, hfb]
    · rcases c <;> simp [get_campaign_budgets, hfb]
  · intro t h
    rcases h with e' | xs
    · rcases t with e | c
      · simp [get_campaign_insights]
      · rcases c <;> simp [get_campaign_insights]
    · simp [get_campaign_insights]
  · intro h trace xs heq
    rcases h with e | ys
    · simp [get_ad_accounts] at heq
    · simp [get_ad_accounts] at heq
      rw [← heq.1]
      simp

/-- C6: when the tool-call path and the HTTP fallback both fail —
whatever the two exceptions are — the three collection-returning
operations return `[]` and `get_account_insights` returns the empty
object, after having attempted both paths; the operations are total, so
no exception reaches the caller. -/
theorem claim6_both_paths_fail_typed_empty (e1 e2 : String) :
    get_campaigns (Except.error e1 : Except String (ToolListContent Nat))
        (Except.error e2)
      = ([PathStep.tool, PathStep.http], []) ∧
    get_campaign_insights (Except.error e1 : Except String (ToolListContent Nat))
        (Except.error e2)
      = ([PathStep.http, PathStep.tool], []) ∧
    get_campaign_budgets (Except.error e1 : Except String (ToolListContent Nat))
        (Except.error e2)
      = ([PathStep.tool, PathStep.http], []) ∧
    get_account_insights (Except.error e1 : Except String (ToolObjContent Nat))
        (Except.error e2)
      = ([PathStep.tool, PathStep.http], none) :=
  ⟨rfl, rfl, rfl, rfl⟩

/-- C7: a chat request with no integration row returns success=false with
the settings guidance and persists it as an assistant row tagged
`no_meta_integration`; an integration without a selected ad account gets
the distinct second guidance, tagged `no_selected_ad_account`; both
outcomes are independent of the agent environment (no agent is built or
invoked), and the first guidance directs the user to the Settings page. -/
theorem claim7_chat_guidance_fallbacks (env env' : ChatEnv) (uid : Nat)
    (msg tok : String) (db0 : List ChatMsg) :
    chat env none uid msg db0
      = ChatOutcome.response ⟨false, guidanceNoIntegration⟩
          (db0 ++ [⟨uid, "user", msg, []⟩,
            ⟨uid, "assistant", guidanceNoIntegration,
              [("error", "no_meta_integration")]⟩]) ∧
    chat env (some ⟨tok, none⟩) uid msg db0
      = ChatOutcome.response ⟨false, guidanceNoSelectedAccount⟩
          (db0 ++ [⟨uid, "user", msg, []⟩,
            ⟨uid, "assistant", guidanceNoSelectedAccount,
              [("error", "no_selected_ad_account")]⟩]) ∧
    chat env none uid msg db0 = chat env' none uid msg db0 ∧
    chat env (some ⟨tok, none⟩) uid msg db0
      = chat env' (some ⟨tok, none⟩) uid msg db0 ∧
    guidanceNoIntegration ≠ guidanceNoSelectedAccount ∧
    strContains guidanceNoIntegration "Settings page" = true ∧
    strContains guidanceNoSelectedAccount "Settings page" = true :=
  ⟨rfl, rfl, rfl, rfl, by decide, by decide, by decide⟩

/-- C8 counterexample: an OPTIONS request to a non-allow-listed path with
no Authorization header is passed straight to the route handler (the
middleware returns `call_next` before any check), not rejected with 401 —
refuting the claim for "any method". -/
theorem claim8_counterexample_options_bypasses_auth :
    dispatch (fun _ => DecodeOutcome.jwtError)
        ⟨"OPTIONS", "/api/chat/", none⟩ = DispatchResult.next none ∧
    (public_paths.any (fun p => strStartsWith "/api/chat/" p)) = false := by
  refine ⟨rfl, by decide⟩

/-- C8 amended: for every NON-OPTIONS request, allow-listed paths (prefix
match against the fixed list) pass through without a token, and all other
paths are answered 401 — without reaching the route handler — when the
Authorization header is missing, is not a Bearer token, or fails JWT
verification. -/
theorem claim8_amended_auth_gate (jwtDecode : String → DecodeOutcome)
    (req : HttpRequest) (hm : req.method ≠ "OPTIONS") :
    (public_paths.any (fun p => strStartsWith req.path p) = true →
      dispatch jwtDecode req = DispatchResult.next none) ∧
    (public_paths.any (fun p => strStartsWith req.path p) = false →
      (req.authHeader = none →
        dispatch jwtDecode req
          = DispatchResult.unauthorized "Missing Authorization header") ∧
      (∀ h, req.authHeader = some h → strStartsWith h "Bearer " = false →
        dispatch jwtDecode req
          = DispatchResult.unauthorized "Missing Authorization header") ∧
      (∀ h, req.authHeader = some h → strStartsWith h "Bearer " = true →
        jwtDecode ((h.splitOn " ").getD 1 "") = DecodeOutcome.jwtError →
        dispatch jwtDecode req = DispatchResult.unauthorized "Invalid token")) := by
  constructor
  · intro hpub
    simp [dispatch, hm, hpub]
  · intro hpub
    refine ⟨?_, ?_, ?_⟩
    · intro hnone
      simp [dispatch, hm, hpub, hnone]
    · intro h hsome hbearer
      simp [dispatch, hm, hpub, hsome, hbearer]
    · intro h hsome hbearer hdec
      simp only [List.getD_eq_getElem?_getD] at hdec
      simp [dispatch, hm, hpub, hsome, hbearer, hdec]

/-- Witness for C8's amended theorem: a GET to /api/chat/ with no
Authorization header is rejected 401, and a GET to /docs passes through. -/
theorem claim8_amended_auth_gate_witness :
    (("GET" : String) ≠ "OPTIONS") ∧
    dispatch (fun _ => DecodeOutcome.jwtError) ⟨"GET", "/api/chat/", none⟩
      = DispatchResult.unauthorized "Missing Authorization header" ∧
    dispatch (fun _ => DecodeOutcome.jwtError) ⟨"GET", "/docs", none⟩
      = DispatchResult.next none :=
  ⟨by decide,
    ((claim8_amended_auth_gate (fun _ => DecodeOutcome.jwtError)
        ⟨"GET", "/api/chat/", none⟩ (by decide)).2 (by decide)).1 rfl,
    (claim8_amended_auth_gate (fun _ => DecodeOutcome.jwtError)
        ⟨"GET", "/docs", none⟩ (by decide)).1 (by decide)⟩

/-- C9: `_calculate_roi` returns "0%" whenever spend is zero; the three
documented inputs render "+50%", "-60%" and "+100%"; and for every nonzero
spend the result is `((revenue-spend)/spend)*100` rendered with an
explicit sign and no decimal places (the spec-side rendering
`roiSpecRender`). -/
theorem claim9_roi_computation :
    (∀ r : ℚ, calculate_roi 0 r = "0%") ∧
    calculate_roi 1000 1500 = "+50%" ∧
    calculate_roi 2000 800 = "-60%" ∧
    calculate_roi 500 1000 = "+100%" ∧
    (∀ s r : ℚ, s ≠ 0 →
      calculate_roi s r = roiSpecRender (((r - s) / s) * 100)) := by
  refine ⟨fun r => rfl, ?_, ?_, ?_, fun s r hs => ?_⟩
  · rw [calculate_roi, if_neg (show (1000 : ℚ) ≠ 0 by norm_num)]
    simp only [show ((1500 - 1000) / 1000 * 100 : ℚ) = 50 by norm_num]
    rw [if_pos (show (0 : ℚ) ≤ 50 by norm_num), formatFixed0,
      if_neg (show ¬ (50 : ℚ) < 0 by norm_num)]
    rfl
  · rw [calculate_roi, if_neg (show (2000 : ℚ) ≠ 0 by norm_num)]
    simp only [show ((800 - 2000) / 2000 * 100 : ℚ) = -60 by norm_num]
    rw [if_neg (show ¬ (0 : ℚ) ≤ -60 by norm_num), formatFixed0,
      if_pos (show (-60 : ℚ) < 0 by norm_num)]
    rfl
  · rw [calculate_roi, if_neg (show (500 : ℚ) ≠ 0 by norm_num)]
    simp only [show ((1000 - 500) / 500 * 100 : ℚ) = 100 by norm_num]
    rw [if_pos (show (0 : ℚ) ≤ 100 by norm_num), formatFixed0,
      if_neg (show ¬ (100 : ℚ) < 0 by norm_num)]
    rfl
  · simp only [calculate_roi, roiSpecRender, formatFixed0, if_neg hs]
    by_cases hx : 0 ≤ ((r - s) / s) * 100
    · rw [if_pos hx, if_pos hx, if_neg (not_lt.mpr hx)]
    · rw [if_neg hx, if_neg hx, if_pos (lt_of_not_ge hx)]
      simp

/-- Witness for C9's refinement conjunct at spend=3, revenue=9. -/
theorem claim9_roi_computation_witness :
    ((3 : ℚ) ≠ 0) ∧
    calculate_roi 3 9 = roiSpecRender (((9 - 3) / 3) * 100) :=
  ⟨by norm_num, claim9_roi_computation.2.2.2.2 3 9 (by norm_num)⟩

/-- C10: the claim is violated by the code.  `_get_base_config` returns a
SHALLOW `dict.copy()`, so with the cached document `{"mcpServers": {}}`
one call's token injection mutates the shared `mcpServers` object: after a
single `configPhase` with token "token-A" the CACHED document itself
resolves `mcpServers.meta-ads.env.META_ACCESS_TOKEN` to "token-A", and the
copy handed to the NEXT call already contains the previous user's token
before its own injection. -/
theorem claim10_base_config_cache_mutated :
    readInjectedToken baseConfigHeap 0 = none ∧
    readInjectedToken (configPhase baseConfigHeap 0 "token-A").2 0
      = some "token-A" ∧
    readInjectedToken
        (get_base_config (configPhase baseConfigHeap 0 "token-A").2 0).2
        (get_base_config (configPhase baseConfigHeap 0 "token-A").2 0).1
      = some "token-A" := by
  refine ⟨rfl, by decide, by decide⟩

end AdGenius
